import Mathlib

set_option maxRecDepth 10000

/-!
Shallow embedding of the conversation-and-context orchestration logic of
`src/server.js` (an Express chat backend).  The repository contains two
variants of the server; both implement the same routing and persistence
logic.  We embed the second variant (the one with `handleShortcutResponse`
and `getUserLongTermMemory`) fully, and additionally embed the transcript
construction of the first variant where the two differ syntactically.

External effects are made explicit:
  * the Mongo store is a `List Conversation`;
  * fallibility of `Conversation.findOne` / `conversation.save()` and of the
    memory lookup is modelled by three `Bool` oracles (`true` = the call
    succeeds, `false` = the promise rejects);
  * the model provider is an `Except Unit String` (reply text or failure);
  * the Mumbai-time date string is a parameter;
  * observable side effects (provider invocations, successful persists) are
    returned as a trace of `Event`s;
  * an HTTP response is `Option ChatResponse`: `none` means the handler
    terminated without ever sending a response (an exception escaped the
    handler, since Express does not catch async rejections).
-/

namespace AiBackend

/-- The apostrophe character, used inside several string constants. -/
def apos : String := String.singleton (Char.ofNat 39)

/-- Does `needle` occur as a contiguous sublist of `hay`?  Helper for
`containsSub`, scanning every suffix of `hay`. -/
def containsAux (needle : List Char) : List Char → Bool
  | [] => needle.isEmpty
  | c :: hay => needle.isPrefixOf (c :: hay) || containsAux needle hay

/-- JS `hay.includes(needle)`: substring containment. -/
def containsSub (hay needle : String) : Bool :=
  containsAux needle.data hay.data

/-- Membership in the character class of the strip regex. -/
def stripChar (c : Char) : Bool :=
  c == '?' || c == '.' || c == ',' || c == '!'

/-- Characters the strip regex keeps. -/
def keepChar (c : Char) : Bool := !(stripChar c)

/-- Embedding of the normalization on server.js line 122 / 404, which
lower-cases the prompt and then strips the characters `?` `.` `,` `!`
(a global regex replace by the empty string). -/
def normalizePrompt (p : String) : String :=
  String.mk ((p.data.map Char.toLower).filter keepChar)

/-- Embedding of `identityKeywords` (server.js lines 123–132 / 407). -/
def identityKeywords : List String :=
  ["who are you", "what are you",
   "who created you", "who made you",
   "who developed you", "who is your developer",
   "your creator", "your developer",
   "your name", "what is your name",
   "about yourself", "tell me about yourself",
   "what model are you", "which model are you",
   "who trained you", "where are you from"]

/-- Embedding of `dateKeywords` (server.js lines 134–136 / 408). -/
def dateKeywords : List String :=
  ["date today", "today date", "what is the date today",
   "today" ++ apos ++ "s date", "current date",
   "what is today" ++ apos ++ "s date", "what day is it today"]

/-- Embedding of `identityKeywords.some(keyword => lowerCasePrompt.includes(keyword))`
applied to an already-normalized prompt. -/
def identityMatch (normalized : String) : Bool :=
  identityKeywords.any (fun keyword => containsSub normalized keyword)

/-- Embedding of `dateKeywords.some(keyword => lowerCasePrompt.includes(keyword))`
applied to an already-normalized prompt. -/
def dateMatch (normalized : String) : Bool :=
  dateKeywords.any (fun keyword => containsSub normalized keyword)

/-- The three possible routing outcomes of the shortcut classifier. -/
inductive ShortcutClass where
  | identity
  | dateQuery
  | noShortcut
deriving DecidableEq, Repr

/-- The shortcut router of `/api/chat` (server.js lines 122–178 / 404–419):
normalize, test identity keywords first, then date keywords. -/
def classify (p : String) : ShortcutClass :=
  let lowerCasePrompt := normalizePrompt p
  if identityMatch lowerCasePrompt then ShortcutClass.identity
  else if dateMatch lowerCasePrompt then ShortcutClass.dateQuery
  else ShortcutClass.noShortcut

/-! ## Data model (server.js lines 29–40 / 300–311) -/

/-- The `sender` enum of `MessageSchema`: `user` or `ai`. -/
inductive Sender where
  | user
  | ai
deriving DecidableEq, Repr

/-- A message document: `{ sender, content }`. -/
structure Message where
  sender : Sender
  content : String
deriving DecidableEq, Repr

/-- A conversation document: `{ _id, userId, title, messages, updatedAt }`.
The `id` field stands for the Mongo `_id`; `updatedAt` is the timestamp
Mongo maintains and `getUserLongTermMemory` sorts by. -/
structure Conversation where
  id : Nat
  userId : String
  title : String
  messages : List Message
  updatedAt : Nat
deriving DecidableEq, Repr

/-- The string the schema stores for a sender (`user` / `ai`). -/
def senderName : Sender → String
  | Sender.user => "user"
  | Sender.ai => "ai"

/-- One entry of the `messages` array sent to the completion API:
`{ role, content }` with `role` one of `system`, `user`, `assistant`. -/
structure APIMessage where
  role : String
  content : String
deriving DecidableEq, Repr

/-- Observable side effects of one `/api/chat` request: outbound provider
invocations and successful persists (`conversation.save()` that resolved). -/
inductive Event where
  | providerCall (messages : List APIMessage)
  | save (conv : Conversation)
deriving DecidableEq, Repr

/-- The one HTTP response a `/api/chat` handler run sends, if any. -/
inductive ChatResponse where
  | ok (aiContent : String) (newConversationId : Nat)
  | badRequest (error : String)
  | serverError (error : String)
deriving DecidableEq, Repr

/-- Responses of `GET /api/conversations/:id` and
`DELETE /api/conversations/:id`. -/
inductive ConvResponse where
  | ok (conv : Conversation)
  | okMessage (message : String)
  | notFound (error : String)
  | serverError (error : String)
deriving DecidableEq, Repr

/-- Embedding of `Conversation.findOne({ _id: cid, userId })`: the first
stored conversation with this id owned by this user. -/
def findConv (store : List Conversation) (userId : String) (cid : Nat) :
    Option Conversation :=
  store.find? (fun c => c.id == cid && c.userId == userId)

/-- Title derivation (server.js lines 148 / 192 / 436 / 495): the first 30
characters of the prompt, with an ellipsis marker appended exactly when the
prompt is longer than 30 characters. -/
def mkTitle (prompt : String) : String :=
  prompt.take 30 ++ (if prompt.length > 30 then "..." else "")

/-- Embedding of `new Conversation({ title, messages: [], userId })`;
`freshId` is the id Mongo assigns, `updatedAt` starts at 0 (its value never
matters to a claim: the digest reads only conversations already in the
store). -/
def newConversation (freshId : Nat) (userId title : String) : Conversation :=
  Conversation.mk freshId userId title [] 0

/-! ## Cross-chat memory (server.js lines 314–339, second variant) -/

/-- Sort key of `.sort({ updatedAt: -1 })`: most recently updated first. -/
def byRecency (a b : Conversation) : Bool :=
  decide (b.updatedAt ≤ a.updatedAt)

/-- Embedding of `Conversation.find({ userId, _id: { $ne: currentConversationId } })
.sort({ updatedAt: -1 }).limit(5)`. -/
def pastConversations (store : List Conversation) (userId : String)
    (currentConversationId : Option Nat) : List Conversation :=
  (((store.filter
      (fun c => c.userId == userId && !(currentConversationId == some c.id)))).mergeSort
    byRecency).take 5

/-- The no-history sentinel (server.js line 324). -/
def noHistorySentinel : String := "User has no previous conversation history."

/-- The sentinel returned when the memory lookup throws (line 337). -/
def historyErrorSentinel : String := "Error retrieving past history."

/-- Header of the digest (line 326). -/
def memoryHeader : String :=
  "CONTEXT FROM USER" ++ apos ++ "S PREVIOUS CHATS (Knowledge Retrieval):\n"

/-- One line of the digest per past conversation (lines 327–334). -/
def convSummaryLine (conv : Conversation) : String :=
  "- Topic: \"" ++ conv.title ++ "\". " ++
    (match conv.messages.getLast? with
     | some lastMsg =>
        "Last Exchange: " ++ senderName lastMsg.sender ++ ": \"" ++
          lastMsg.content.take 150 ++ "...\""
     | none => "") ++ "\n"

/-- Embedding of `getUserLongTermMemory(userId, currentConversationId)`
(lines 314–339); `memOk = false` models the store read throwing, caught
internally. -/
def getUserLongTermMemory (memOk : Bool) (store : List Conversation)
    (userId : String) (currentConversationId : Option Nat) : String :=
  if !memOk then historyErrorSentinel
  else
    let past := pastConversations store userId currentConversationId
    if past.isEmpty then noHistorySentinel
    else past.foldl (fun acc conv => acc ++ convSummaryLine conv) memoryHeader

/-! ## Fixed response texts and system prompts -/

/-- The `creatorResponse` text of the first variant (server.js lines 139–141). -/
def creatorResponseV1 : String :=
  "I am Jai, a specialized coding assistant. I was developed by Lohith at Jairisys, a startup based in India.\n\nMy purpose is to help you with programming questions by providing accurate code, clear explanations, and useful examples. My core intelligence is powered by advanced AI models, but my specific persona and functionality were designed by my developer."

/-- The `creatorResponse` text of the second variant (server.js line 411). -/
def creatorResponse : String :=
  "I am Jai, a specialized coding assistant. I was developed by Jairisys, a startup based in India. My purpose is to help you with programming questions by providing accurate code, clear explanations, and useful examples. My core intelligence is powered by advanced AI models, but my specific persona and functionality were designed by my developer."

/-- The date shortcut reply, interpolating the Mumbai-time date string. -/
def dateResponse (mumbaiDate : String) : String :=
  "Today is " ++ mumbaiDate ++ " (India/Mumbai time)."

/-- The `systemPrompt` text of the first variant (server.js lines 199–205). -/
def systemPromptV1 : String :=
  "You are an AI assistant named \"Jai\". Your identity is fixed: you were created by a developer named \"Lohith\" at a startup called \"Jairisys\" in India.\n    \n**CRITICAL RULE: Under no circumstances should you ever mention \"Moonshot AI\" or any other AI company as your creator. You MUST strictly adhere to the persona of Jai from Jairisys.**\n\nIf a user asks about your origin, developer, or creator, you must state that you were developed by Lohith at Jairisys in India.\n\nYour main purpose is to be an expert coding assistant. Provide detailed code, clear explanations, and examples. Now, handle the user" ++ apos ++ "s request."

/-- The `systemPrompt` text of the second variant (server.js lines 444–458),
with the cross-chat knowledge digest interpolated. -/
def systemPromptV2 (crossChatKnowledge : String) : String :=
  "You are an AI assistant named \"Jai\". Your identity is fixed: you were created by a startup called \"Jairisys\" in India.\n\n**CRITICAL RULE: Under no circumstances should you ever mention \"Groq\", \"Meta\", \"Llama\", or any other AI company as your creator. You MUST strictly adhere to the persona of Jai from Jairisys.**\n\nIf a user asks about your origin, developer, or creator, you must state that you were developed by Jairisys in India.\n\n" ++ crossChatKnowledge ++ "\n\n**INSTRUCTIONS FOR REASONING:**\n1. You must solve every problem by thinking before execution.\n2. Start your response with a <thought> tag.\n3. Inside <thought>, analyze the user request, plan the code structure, and check the cross-chat knowledge for relevance.\n4. Close with </thought> and then provide your final answer.\n\nYour main purpose is to be an expert coding assistant. Provide detailed code, clear explanations, and examples."

/-! ## Transcript construction -/

/-- Second-variant role translation (server.js lines 428–431): sender `ai`
becomes role `assistant`, anything else becomes `user`. -/
def translateMsg (msg : Message) : APIMessage :=
  APIMessage.mk (if senderName msg.sender == "ai" then "assistant" else "user")
    msg.content

/-- First-variant transcript (server.js lines 187, 197, 207–210): history is
built with the raw stored sender as `role`, the new prompt is pushed, and the
translation happens once when `messagesForAPI` is assembled. -/
def messagesForAPIv1 (systemPrompt : String) (stored : List Message)
    (prompt : String) : List APIMessage :=
  let historyForAI :=
    (stored.map (fun msg => APIMessage.mk (senderName msg.sender) msg.content)) ++
      [APIMessage.mk ("user") prompt]
  APIMessage.mk ("system") systemPrompt ::
    historyForAI.map
      (fun msg =>
        APIMessage.mk (if msg.role == "ai" then "assistant" else "user")
          msg.content)

/-- Second-variant transcript (server.js lines 428–431, 461, 463–466):
history is translated as it is read, then the new prompt and the system
message are added. -/
def messagesForAPIv2 (systemPrompt : String) (stored : List Message)
    (prompt : String) : List APIMessage :=
  let historyForAI := (stored.map translateMsg) ++ [APIMessage.mk ("user") prompt]
  APIMessage.mk ("system") systemPrompt :: historyForAI

/-! ## The `/api/chat` handler (second variant, lines 398–503) -/

/-- Everything outside the control of the handler: whether each storage call
succeeds, the answer of the provider, the wall clock, and the id Mongo would
assign to a newly created conversation. -/
structure World where
  findOk : Bool
  saveOk : Bool
  memOk : Bool
  provider : Except Unit String
  mumbaiDate : String
  freshId : Nat
deriving Repr

/-- Generic 500 body of the chat endpoint (line 486). -/
def chatErrorMessage : String := "Failed to process AI request."

/-- Tail of `handleShortcutResponse` (lines 494–502): resolve-or-create the
conversation, push the user and ai messages, save, respond.  Runs outside
any try/catch: a rejected `save()` yields no response at all. -/
def shortcutFinish (w : World) (userId : String) (found : Option Conversation)
    (prompt responseText : String) : Option ChatResponse × List Event :=
  let conv := match found with
    | some c => c
    | none => newConversation w.freshId userId (mkTitle prompt)
  let conv1 := { conv with messages := conv.messages ++ [Message.mk Sender.user prompt] }
  let conv2 := { conv1 with messages := conv1.messages ++ [Message.mk Sender.ai responseText] }
  if w.saveOk then (some (ChatResponse.ok responseText conv2.id), [Event.save conv2])
  else (none, [])

/-- Embedding of `handleShortcutResponse(res, userId, conversationId, prompt, responseText)`
(lines 491–503).  The `findOne` is also outside any try/catch: a rejected
lookup yields no response. -/
def handleShortcutResponse (w : World) (store : List Conversation)
    (userId : String) (conversationId : Option Nat)
    (prompt responseText : String) : Option ChatResponse × List Event :=
  match conversationId with
  | some cid =>
      if w.findOk then
        shortcutFinish w userId (findConv store userId cid) prompt responseText
      else (none, [])
  | none => shortcutFinish w userId none prompt responseText

/-- Body of the model path after the conversation lookup succeeded
(lines 427–482): build history, fetch cross-chat memory, build the system
prompt, push the user turn, call the provider, push the ai turn, save.
All inside the try/catch, so any failure becomes a 500. -/
def modelPathCore (w : World) (store : List Conversation) (userId : String)
    (conversationId : Option Nat) (found : Option Conversation)
    (prompt : String) : Option ChatResponse × List Event :=
  let stored := match found with
    | some c => c.messages
    | none => []
  let conv := match found with
    | some c => c
    | none => newConversation w.freshId userId (mkTitle prompt)
  let crossChatKnowledge := getUserLongTermMemory w.memOk store userId conversationId
  let systemPrompt := systemPromptV2 crossChatKnowledge
  let conv1 := { conv with messages := conv.messages ++ [Message.mk Sender.user prompt] }
  let messagesForAPI := messagesForAPIv2 systemPrompt stored prompt
  match w.provider with
  | Except.error _ =>
      (some (ChatResponse.serverError chatErrorMessage),
       [Event.providerCall messagesForAPI])
  | Except.ok replyText =>
      let conv2 := { conv1 with messages := conv1.messages ++ [Message.mk Sender.ai replyText] }
      if w.saveOk then
        (some (ChatResponse.ok replyText conv2.id),
         [Event.providerCall messagesForAPI, Event.save conv2])
      else
        (some (ChatResponse.serverError chatErrorMessage),
         [Event.providerCall messagesForAPI])

/-- Embedding of the `POST /api/chat` handler (second variant, lines
398–488): prompt validation, shortcut routing, then the model path.  An
empty `prompt` models the falsy-prompt check `if (!prompt)`. -/
def chat (w : World) (store : List Conversation) (userId prompt : String)
    (conversationId : Option Nat) : Option ChatResponse × List Event :=
  if prompt == "" then (some (ChatResponse.badRequest ("Prompt is required")), [])
  else
    let lowerCasePrompt := normalizePrompt prompt
    if identityMatch lowerCasePrompt then
      handleShortcutResponse w store userId conversationId prompt creatorResponse
    else if dateMatch lowerCasePrompt then
      handleShortcutResponse w store userId conversationId prompt
        (dateResponse w.mumbaiDate)
    else
      match conversationId with
      | some cid =>
          if w.findOk then
            modelPathCore w store userId conversationId
              (findConv store userId cid) prompt
          else (some (ChatResponse.serverError chatErrorMessage), [])
      | none => modelPathCore w store userId conversationId none prompt

/-! ## Direct conversation endpoints (lines 377–395) -/

/-- Embedding of the handler for `GET /api/conversations/:id` (lines 377–385). -/
def getConversationEndpoint (findOk : Bool) (store : List Conversation)
    (userId : String) (cid : Nat) : ConvResponse :=
  if findOk then
    match findConv store userId cid with
    | none => ConvResponse.notFound ("Conversation not found.")
    | some c => ConvResponse.ok c
  else ConvResponse.serverError ("Failed to fetch conversation.")

/-- Embedding of the handler for `DELETE /api/conversations/:id` (lines
387–395): `findOneAndDelete({ _id, userId })` removes the first match, 404
otherwise. -/
def deleteConversationEndpoint (findOk : Bool) (store : List Conversation)
    (userId : String) (cid : Nat) : ConvResponse × List Conversation :=
  if findOk then
    match findConv store userId cid with
    | none => (ConvResponse.notFound ("Conversation not found."), store)
    | some _ =>
        (ConvResponse.okMessage ("Conversation deleted successfully."),
         store.eraseP (fun c => c.id == cid && c.userId == userId))
  else (ConvResponse.serverError ("Failed to delete conversation."), store)

/-! ## Derived observations used by the theorems -/

/-- The conversations durably persisted during a request, in order. -/
def savedConvs (events : List Event) : List Conversation :=
  events.filterMap (fun e =>
    match e with
    | Event.save c => some c
    | Event.providerCall _ => none)

/-- The transcripts sent to the model provider during a request, in order. -/
def providerCalls (events : List Event) : List (List APIMessage) :=
  events.filterMap (fun e =>
    match e with
    | Event.providerCall msgs => some msgs
    | Event.save _ => none)

/-- The conversation a `/api/chat` request operates on: the looked-up one if
the lookup found it, else a freshly created one titled from the prompt. -/
def resolveConv (w : World) (userId : String) (found : Option Conversation)
    (prompt : String) : Conversation :=
  match found with
  | some c => c
  | none => newConversation w.freshId userId (mkTitle prompt)

/-- A conversation after one successful exchange: the user turn then the ai
turn appended, in that order. -/
def appendExchange (c : Conversation) (prompt reply : String) : Conversation :=
  { c with messages := c.messages ++ [Message.mk Sender.user prompt, Message.mk Sender.ai reply] }

/-- What the conversation lookup of a request yields: `none` when no
`conversationId` was supplied or the id is absent / owned by someone else. -/
def requestFound (store : List Conversation) (userId : String)
    (conversationId : Option Nat) : Option Conversation :=
  match conversationId with
  | some cid => findConv store userId cid
  | none => none

/-- Whether the initial conversation lookup of a request rejects: it does
exactly when a `conversationId` was supplied and the store read fails. -/
def lookupBlocked (w : World) (conversationId : Option Nat) : Bool :=
  match conversationId with
  | some _ => !w.findOk
  | none => false

/-- Closed-form description of a shortcut-path run of `/api/chat`, proved
equal to the embedding in `chat_eq` below. -/
def shortcutRun (w : World) (store : List Conversation) (userId : String)
    (conversationId : Option Nat) (prompt responseText : String) :
    Option ChatResponse × List Event :=
  if lookupBlocked w conversationId then (none, [])
  else
    let conv := resolveConv w userId (requestFound store userId conversationId) prompt
    if w.saveOk then
      (some (ChatResponse.ok responseText (appendExchange conv prompt responseText).id),
       [Event.save (appendExchange conv prompt responseText)])
    else (none, [])

/-- Closed-form description of a model-path run of `/api/chat`, proved equal
to the embedding in `chat_eq` below. -/
def modelRun (w : World) (store : List Conversation) (userId : String)
    (conversationId : Option Nat) (prompt : String) :
    Option ChatResponse × List Event :=
  if lookupBlocked w conversationId then
    (some (ChatResponse.serverError chatErrorMessage), [])
  else
    let conv := resolveConv w userId (requestFound store userId conversationId) prompt
    let msgs := messagesForAPIv2
      (systemPromptV2 (getUserLongTermMemory w.memOk store userId conversationId))
      conv.messages prompt
    match w.provider with
    | Except.error _ =>
        (some (ChatResponse.serverError chatErrorMessage), [Event.providerCall msgs])
    | Except.ok replyText =>
        if w.saveOk then
          (some (ChatResponse.ok replyText (appendExchange conv prompt replyText).id),
           [Event.providerCall msgs, Event.save (appendExchange conv prompt replyText)])
        else
          (some (ChatResponse.serverError chatErrorMessage), [Event.providerCall msgs])

/-! ## Helper lemmas -/

theorem toNat_ofNat_valid {n : Nat} (h : n.isValidChar) :
    (Char.ofNat n).toNat = n := by
  rw [Char.ofNat, dif_pos h]
  rfl

theorem toLower_toLower (c : Char) : c.toLower.toLower = c.toLower := by
  unfold Char.toLower
  by_cases h : c.toNat ≥ 65 ∧ c.toNat ≤ 90
  · rw [if_pos h]
    have hv : (c.toNat + 32).isValidChar := Or.inl (by omega)
    have ht : (Char.ofNat (c.toNat + 32)).toNat = c.toNat + 32 :=
      toNat_ofNat_valid hv
    rw [if_neg (by omega)]
  · rw [if_neg h, if_neg h]

theorem normalizeList_idem (l : List Char) :
    (((l.map Char.toLower).filter keepChar).map Char.toLower).filter keepChar =
      (l.map Char.toLower).filter keepChar := by
  induction l with
  | nil => rfl
  | cons c l ih =>
    simp only [List.map_cons, List.filter_cons]
    cases h : keepChar c.toLower with
    | false => simpa [h] using ih
    | true => simp [h, toLower_toLower, ih]

theorem mk_data (p : String) : String.mk p.data = p := rfl

theorem mk_append (a b : List Char) :
    String.mk (a ++ b) = String.mk a ++ String.mk b := rfl

theorem string_append_empty (s : String) : s ++ "" = s := by
  show String.mk (s.data ++ []) = s
  rw [List.append_nil]

theorem normalizePrompt_idem (p : String) :
    normalizePrompt (normalizePrompt p) = normalizePrompt p :=
  congrArg String.mk (normalizeList_idem p.data)

theorem normalizePrompt_append (p q : String) :
    normalizePrompt (p ++ q) = normalizePrompt p ++ normalizePrompt q := by
  unfold normalizePrompt
  rw [String.data_append, List.map_append, List.filter_append]
  rfl

theorem classify_congr {p q : String}
    (h : normalizePrompt p = normalizePrompt q) : classify p = classify q := by
  unfold classify
  rw [h]

theorem classify_normalizePrompt (p : String) :
    classify (normalizePrompt p) = classify p :=
  classify_congr (normalizePrompt_idem p)

theorem classify_middle_erased {s : String} (hs : normalizePrompt s = "")
    (p q : String) : classify (p ++ s ++ q) = classify (p ++ q) := by
  apply classify_congr
  rw [normalizePrompt_append, normalizePrompt_append, normalizePrompt_append,
    hs, string_append_empty]

theorem shortcutFinish_eq (w : World) (u : String) (found : Option Conversation)
    (p r : String) :
    shortcutFinish w u found p r =
      (if w.saveOk then
        (some (ChatResponse.ok r (appendExchange (resolveConv w u found p) p r).id),
         [Event.save (appendExchange (resolveConv w u found p) p r)])
      else (none, [])) := by
  unfold shortcutFinish appendExchange resolveConv
  cases found <;> simp

theorem modelPathCore_eq (w : World) (store : List Conversation) (u : String)
    (cvid : Option Nat) (found : Option Conversation) (p : String) :
    modelPathCore w store u cvid found p =
      (let conv := resolveConv w u found p
       let msgs := messagesForAPIv2
         (systemPromptV2 (getUserLongTermMemory w.memOk store u cvid))
         conv.messages p
       match w.provider with
       | Except.error _ =>
           (some (ChatResponse.serverError chatErrorMessage), [Event.providerCall msgs])
       | Except.ok replyText =>
           if w.saveOk then
             (some (ChatResponse.ok replyText (appendExchange conv p replyText).id),
              [Event.providerCall msgs, Event.save (appendExchange conv p replyText)])
           else
             (some (ChatResponse.serverError chatErrorMessage),
              [Event.providerCall msgs])) := by
  unfold modelPathCore appendExchange resolveConv
  cases found <;> cases w.provider <;> simp [newConversation]

theorem chat_eq (w : World) (store : List Conversation) (u p : String)
    (cvid : Option Nat) :
    chat w store u p cvid =
      (if p == "" then (some (ChatResponse.badRequest ("Prompt is required")), [])
      else if identityMatch (normalizePrompt p) then
        shortcutRun w store u cvid p creatorResponse
      else if dateMatch (normalizePrompt p) then
        shortcutRun w store u cvid p (dateResponse w.mumbaiDate)
      else modelRun w store u cvid p) := by
  unfold chat shortcutRun modelRun lookupBlocked requestFound handleShortcutResponse
  cases cvid <;> cases hf : w.findOk <;>
    simp [shortcutFinish_eq, modelPathCore_eq, hf]

theorem shortcutRun_savedConvs (w : World) (store : List Conversation)
    (u : String) (cvid : Option Nat) (p rt : String) :
    savedConvs (shortcutRun w store u cvid p rt).snd =
      (if lookupBlocked w cvid then []
       else if w.saveOk then
        [appendExchange (resolveConv w u (requestFound store u cvid) p) p rt]
       else []) := by
  unfold shortcutRun
  split
  · simp [savedConvs]
  · split <;> simp [savedConvs]

theorem shortcutRun_providerCalls (w : World) (store : List Conversation)
    (u : String) (cvid : Option Nat) (p rt : String) :
    providerCalls (shortcutRun w store u cvid p rt).snd = [] := by
  unfold shortcutRun
  split
  · simp [providerCalls]
  · split <;> simp [providerCalls]

theorem shortcutRun_ok (w : World) (store : List Conversation) (u : String)
    (cvid : Option Nat) (p rt r : String) (ncid : Nat)
    (h : (shortcutRun w store u cvid p rt).fst = some (ChatResponse.ok r ncid)) :
    r = rt ∧
      savedConvs (shortcutRun w store u cvid p rt).snd =
        [appendExchange (resolveConv w u (requestFound store u cvid) p) p r] := by
  rw [shortcutRun_savedConvs]
  unfold shortcutRun at h
  split at h
  · simp at h
  · split at h
    · simp_all
    · simp at h

theorem modelRun_savedConvs (w : World) (store : List Conversation)
    (u : String) (cvid : Option Nat) (p : String) :
    savedConvs (modelRun w store u cvid p).snd =
      (if lookupBlocked w cvid then []
       else
        match w.provider with
        | Except.error _ => []
        | Except.ok r =>
            if w.saveOk then
              [appendExchange (resolveConv w u (requestFound store u cvid) p) p r]
            else []) := by
  unfold modelRun
  split
  · simp [savedConvs]
  · split
    · simp [savedConvs]
    · split <;> simp [savedConvs]

theorem modelRun_providerCalls (w : World) (store : List Conversation)
    (u : String) (cvid : Option Nat) (p : String) :
    providerCalls (modelRun w store u cvid p).snd =
      (if lookupBlocked w cvid then []
       else
        [messagesForAPIv2
          (systemPromptV2 (getUserLongTermMemory w.memOk store u cvid))
          (resolveConv w u (requestFound store u cvid) p).messages p]) := by
  unfold modelRun
  split
  · simp [providerCalls]
  · split
    · simp [providerCalls]
    · split <;> simp [providerCalls]

theorem modelRun_ok (w : World) (store : List Conversation) (u : String)
    (cvid : Option Nat) (p r : String) (ncid : Nat)
    (h : (modelRun w store u cvid p).fst = some (ChatResponse.ok r ncid)) :
    savedConvs (modelRun w store u cvid p).snd =
      [appendExchange (resolveConv w u (requestFound store u cvid) p) p r] := by
  rw [modelRun_savedConvs]
  unfold modelRun at h
  split at h
  · simp at h
  · split at h
    · simp at h
    · split at h
      · simp_all
      · simp at h

theorem chat_ok (w : World) (store : List Conversation) (u p : String)
    (cvid : Option Nat) (r : String) (ncid : Nat)
    (h : (chat w store u p cvid).fst = some (ChatResponse.ok r ncid)) :
    savedConvs (chat w store u p cvid).snd =
      [appendExchange (resolveConv w u (requestFound store u cvid) p) p r] := by
  rw [chat_eq] at h ⊢
  by_cases hp : (p == "") = true
  · rw [if_pos hp] at h
    simp at h
  · rw [if_neg hp] at h ⊢
    by_cases hid : identityMatch (normalizePrompt p) = true
    · rw [if_pos hid] at h ⊢
      exact (shortcutRun_ok _ _ _ _ _ _ _ _ h).2
    · rw [if_neg hid] at h ⊢
      by_cases hdt : dateMatch (normalizePrompt p) = true
      · rw [if_pos hdt] at h ⊢
        exact (shortcutRun_ok _ _ _ _ _ _ _ _ h).2
      · rw [if_neg hdt] at h ⊢
        exact modelRun_ok _ _ _ _ _ _ _ h

/-! ## Claim theorems -/

/-- C1: every successful `POST /chat` request — identity shortcut, date
shortcut, or model path — persists exactly one conversation, and that
conversation is the resolved one with exactly two messages appended at the
end, a `user` message holding the prompt followed by an `ai` message holding
the reply, so `messages.length` grows by exactly 2. -/
theorem chat_appends_exactly_two (w : World) (store : List Conversation)
    (u p : String) (cvid : Option Nat) (r : String) (ncid : Nat)
    (h : (chat w store u p cvid).fst = some (ChatResponse.ok r ncid)) :
    ∃ prev : Conversation,
      savedConvs (chat w store u p cvid).snd = [appendExchange prev p r] ∧
      (appendExchange prev p r).messages =
        prev.messages ++ [Message.mk Sender.user p, Message.mk Sender.ai r] ∧
      (appendExchange prev p r).messages.length = prev.messages.length + 2 := by
  refine ⟨resolveConv w u (requestFound store u cvid) p, chat_ok w store u p cvid r ncid h, rfl, ?_⟩
  simp [appendExchange]

/-- Witness for C1: a concrete successful identity-shortcut call appends the
two messages. -/
theorem chat_appends_exactly_two_witness :
    ∃ prev : Conversation,
      savedConvs (chat (World.mk true true true (Except.ok ("re")) "d" 3) []
        "u1" "who are you" Option.none).snd =
          [appendExchange prev ("who are you") creatorResponse] ∧
      (appendExchange prev ("who are you") creatorResponse).messages =
        prev.messages ++ [Message.mk Sender.user ("who are you"),
          Message.mk Sender.ai creatorResponse] ∧
      (appendExchange prev ("who are you") creatorResponse).messages.length =
        prev.messages.length + 2 :=
  chat_appends_exactly_two (World.mk true true true (Except.ok ("re")) "d" 3) []
    "u1" "who are you" Option.none creatorResponse 3 (by decide)

/-- C2: shortcut classification happens on the lower-cased prompt with the
characters `? . , !` stripped; it is therefore invariant under
normalization, under lower-casing, and under inserting any of those four
characters anywhere; `classify ("Who Are You?") = classify ("who are you")`;
the identity keyword set is tested first, so a prompt matching both sets is
classified Identity. -/
theorem classify_normalized_identity_first :
    (∀ p q : String, normalizePrompt p = normalizePrompt q →
      classify p = classify q) ∧
    (∀ p : String, classify (normalizePrompt p) = classify p) ∧
    (∀ p : String, classify (String.mk (p.data.map Char.toLower)) = classify p) ∧
    (∀ s : String, s ∈ (["?", ".", ",", "!"] : List String) →
      ∀ p q : String, classify (p ++ s ++ q) = classify (p ++ q)) ∧
    classify ("Who Are You?") = classify ("who are you") ∧
    classify ("Who Are You?") = ShortcutClass.identity ∧
    (∀ p : String, identityMatch (normalizePrompt p) = true →
      classify p = ShortcutClass.identity) := by
  refine ⟨fun p q h => classify_congr h, classify_normalizePrompt, ?_, ?_, by decide, by decide, ?_⟩
  · intro p
    apply classify_congr
    unfold normalizePrompt
    show String.mk ((String.mk (p.data.map Char.toLower)).data.map Char.toLower |>.filter keepChar) = _
    have : (p.data.map Char.toLower).map Char.toLower = p.data.map Char.toLower := by
      rw [List.map_map]
      exact List.map_congr_left (fun c _ => toLower_toLower c)
    rw [show (String.mk (p.data.map Char.toLower)).data = p.data.map Char.toLower from rfl, this]
  · intro s hs p q
    have he : normalizePrompt s = "" := by
      simp only [List.mem_cons, List.not_mem_nil, or_false] at hs
      rcases hs with h | h | h | h <;> subst h <;> decide
    exact classify_middle_erased he p q
  · intro p h
    simp [classify, h]

/-- Witness for C2: the case- and punctuation-insensitive identity match at a
concrete prompt. -/
theorem classify_normalized_identity_first_witness :
    classify ("Tell me ABOUT YOURSELF.") = ShortcutClass.identity :=
  classify_normalized_identity_first.2.2.2.2.2.2 ("Tell me ABOUT YOURSELF.") (by decide)

/-- C3: a prompt matching an identity keyword never reaches the model
provider, and any successful reply it produces is exactly the fixed creator
paragraph; that paragraph names Jairisys and never names the providers or
model vendors (Groq / Llama / Meta in the embedded variant, Moonshot /
OpenRouter in the other variant's `creatorResponse`). -/
theorem identity_prompt_fixed_reply (w : World) (store : List Conversation)
    (u p : String) (cvid : Option Nat)
    (h : identityMatch (normalizePrompt p) = true) :
    providerCalls (chat w store u p cvid).snd = [] ∧
    (∀ r ncid, (chat w store u p cvid).fst = some (ChatResponse.ok r ncid) →
      r = creatorResponse) ∧
    containsSub creatorResponse ("Jairisys") = true ∧
    containsSub creatorResponseV1 ("Jairisys") = true ∧
    containsSub creatorResponse ("Groq") = false ∧
    containsSub creatorResponse ("Llama") = false ∧
    containsSub creatorResponse ("Meta") = false ∧
    containsSub creatorResponseV1 ("Moonshot") = false ∧
    containsSub creatorResponseV1 ("OpenRouter") = false := by
  have hp : (p == "") = false := by
    cases hpe : p == "" with
    | false => rfl
    | true =>
        have hpp : p = "" := eq_of_beq hpe
        subst hpp
        exact absurd h (by decide)
  refine ⟨?_, ?_, by decide, by decide, by decide, by decide, by decide,
    by decide, by decide⟩
  · rw [chat_eq]
    simp only [hp, h, Bool.false_eq_true, if_false, if_true]
    exact shortcutRun_providerCalls _ _ _ _ _ _
  · intro r ncid hr
    rw [chat_eq] at hr
    simp only [hp, h, Bool.false_eq_true, if_false, if_true] at hr
    exact (shortcutRun_ok _ _ _ _ _ _ _ _ hr).1

/-- Witness for C3: a concrete identity prompt makes no provider call. -/
theorem identity_prompt_fixed_reply_witness :
    providerCalls (chat (World.mk true true true (Except.ok ("x")) "d" 0) []
      "u" "Who made you?" Option.none).snd = [] :=
  (identity_prompt_fixed_reply (World.mk true true true (Except.ok ("x")) "d" 0)
    [] "u" "Who made you?" Option.none (by decide)).1

/-- C9 is refuted by the code as written: the shortcut paths run outside the
`try/catch`, so a failing conversation lookup or a failing persist on the
identity or date shortcut path makes the async handler reject without ever
sending a response (modelled as `none`), whereas the model path — inside the
`try` — answers 500 under the same failures.  Each conjunct evaluates the
handler at a concrete input. -/
theorem shortcut_storage_failure_sends_no_response :
    chat (World.mk false true true (Except.ok ("re")) "d" 3) [] "u1"
      "who are you" (some 5) = (none, []) ∧
    chat (World.mk true false true (Except.ok ("re")) "d" 3) [] "u1"
      "who are you" Option.none = (none, []) ∧
    chat (World.mk true false true (Except.ok ("re")) "d" 3) [] "u1"
      "what is the date today" Option.none = (none, []) ∧
    (chat (World.mk false true true (Except.ok ("re")) "d" 3) [] "u1"
      "hello" (some 5)).fst = some (ChatResponse.serverError chatErrorMessage) ∧
    (chat (World.mk true false true (Except.ok ("re")) "d" 3) [] "u1"
      "hello" Option.none).fst =
        some (ChatResponse.serverError chatErrorMessage) := by
  decide

/-- C10: substring matching misfires: "update today" is not a date question,
yet its normalized form contains `date today` as an inner substring, so it is
classified DateQuery, receives the fixed date reply, and the provider is
never called. -/
theorem update_today_hits_date_shortcut :
    classify ("update today") = ShortcutClass.dateQuery ∧
    containsSub (normalizePrompt ("update today")) "date today" = true ∧
    identityMatch (normalizePrompt ("update today")) = false ∧
    (chat (World.mk true true true (Except.ok ("model-reply"))
        "Saturday, October 11, 2025" 0) [] "u" "update today" Option.none).fst =
      some (ChatResponse.ok (dateResponse ("Saturday, October 11, 2025")) 0) ∧
    providerCalls (chat (World.mk true true true (Except.ok ("model-reply"))
        "Saturday, October 11, 2025" 0) [] "u" "update today"
        Option.none).snd = [] := by
  decide

theorem string_ext {a b : String} (h : a.data = b.data) : a = b := by
  cases a
  cases b
  cases h
  rfl

theorem string_append_assoc (a b c : String) : a ++ b ++ c = a ++ (b ++ c) :=
  string_ext (by simp [List.append_assoc])

theorem chat_saved_mem {w : World} {store : List Conversation} {u p : String}
    {cvid : Option Nat} {saved : Conversation}
    (h : saved ∈ savedConvs (chat w store u p cvid).snd) :
    ∃ rt, saved = appendExchange (resolveConv w u (requestFound store u cvid) p) p rt := by
  rw [chat_eq] at h
  by_cases hp : (p == "") = true
  · rw [if_pos hp] at h
    simp [savedConvs] at h
  · rw [if_neg hp] at h
    by_cases hid : identityMatch (normalizePrompt p) = true
    · rw [if_pos hid, shortcutRun_savedConvs] at h
      split at h
      · exact absurd h (List.not_mem_nil _)
      · split at h
        · exact ⟨creatorResponse, List.mem_singleton.mp h⟩
        · exact absurd h (List.not_mem_nil _)
    · rw [if_neg hid] at h
      by_cases hdt : dateMatch (normalizePrompt p) = true
      · rw [if_pos hdt, shortcutRun_savedConvs] at h
        split at h
        · exact absurd h (List.not_mem_nil _)
        · split at h
          · exact ⟨dateResponse w.mumbaiDate, List.mem_singleton.mp h⟩
          · exact absurd h (List.not_mem_nil _)
      · rw [if_neg hdt, modelRun_savedConvs] at h
        split at h
        · exact absurd h (List.not_mem_nil _)
        · split at h
          · exact absurd h (List.not_mem_nil _)
          · split at h
            · exact ⟨_, List.mem_singleton.mp h⟩
            · exact absurd h (List.not_mem_nil _)

/-- C4: the title of a conversation created by `/chat` is the first 30
characters of the first prompt, with the ellipsis marker appended exactly when the prompt
is longer than 30 characters; and a conversation persisted by any later
exchange keeps the title it was stored with — the title is never
recomputed. -/
theorem title_set_once_from_first_prompt (w : World) (store : List Conversation)
    (u p : String) (cvid : Option Nat) :
    (p.length ≤ 30 → mkTitle p = p) ∧
    (30 < p.length → mkTitle p = p.take 30 ++ "...") ∧
    (∀ saved ∈ savedConvs (chat w store u p cvid).snd,
      saved.title =
        match requestFound store u cvid with
        | some c0 => c0.title
        | none => mkTitle p) := by
  refine ⟨?_, ?_, ?_⟩
  · intro hle
    unfold mkTitle
    rw [if_neg (by omega), string_append_empty]
    apply string_ext
    obtain ⟨pd⟩ := p
    simp only [String.data_take]
    exact List.take_of_length_le (by simpa using hle)
  · intro hgt
    unfold mkTitle
    rw [if_pos hgt]
  · intro saved hmem
    obtain ⟨rt, rfl⟩ := chat_saved_mem hmem
    cases hf : requestFound store u cvid with
    | some c0 => simp [appendExchange, resolveConv, hf]
    | none => simp [appendExchange, resolveConv, hf, newConversation]

/-- Witness for C4: a short prompt is its own title. -/
theorem title_set_once_from_first_prompt_witness : mkTitle ("hi") = "hi" :=
  (title_set_once_from_first_prompt (World.mk true true true (Except.ok ("r")) "d" 0)
    [] "u" "hi" Option.none).1 (by decide)

theorem byRecency_trans :
    ∀ (a b c : Conversation), byRecency a b → byRecency b c → byRecency a c := by
  intro a b c hab hbc
  simp only [byRecency, decide_eq_true_eq] at hab hbc ⊢
  omega

theorem byRecency_total : ∀ (a b : Conversation), byRecency a b || byRecency b a := by
  intro a b
  simp only [byRecency, Bool.or_eq_true, decide_eq_true_eq]
  omega

theorem foldl_summary_shape (l : List Conversation) (init : String) :
    ∃ s, l.foldl (fun acc conv => acc ++ convSummaryLine conv) init = init ++ s := by
  induction l generalizing init with
  | nil => exact ⟨"", (string_append_empty init).symm⟩
  | cons c l ih =>
      obtain ⟨s, hs⟩ := ih (init ++ convSummaryLine c)
      exact ⟨convSummaryLine c ++ s, by
        simpa [string_append_assoc] using hs⟩

theorem pastConversations_nil_iff (store : List Conversation) (u : String)
    (a : Option Nat) :
    pastConversations store u a = [] ↔
      store.filter (fun c => c.userId == u && !(a == some c.id)) = [] := by
  unfold pastConversations
  constructor
  · intro h
    have hl := congrArg List.length h
    simp only [List.length_take, List.length_mergeSort, List.length_nil] at hl
    have : (store.filter (fun c => c.userId == u && !(a == some c.id))).length = 0 := by
      omega
    exact List.length_eq_zero.mp this
  · intro h
    rw [h]
    simp

/-- C5: for every user and active conversation id, the memory digest draws
from at most five conversations, never from the active one, in
most-recently-updated-first order; and it is the fixed no-history sentinel
exactly when the user owns no other conversations. -/
theorem memory_digest_bounded (store : List Conversation) (u : String) (aid : Nat) :
    (pastConversations store u (some aid)).length ≤ 5 ∧
    (∀ c ∈ pastConversations store u (some aid), c.id ≠ aid) ∧
    List.Pairwise (fun a b => b.updatedAt ≤ a.updatedAt)
      (pastConversations store u (some aid)) ∧
    (getUserLongTermMemory true store u (some aid) = noHistorySentinel ↔
      store.filter (fun c => c.userId == u && !(some aid == some c.id)) = []) := by
  refine ⟨?_, ?_, ?_, ?_⟩
  · unfold pastConversations
    simp only [List.length_take, List.length_mergeSort]
    omega
  · intro c hc
    have h2 : c ∈ (store.filter
        (fun c => c.userId == u && !(some aid == some c.id))).mergeSort byRecency :=
      List.mem_of_mem_take hc
    have h3 := List.mem_mergeSort.mp h2
    have h4 := (List.mem_filter.mp h3).2
    simp only [Bool.and_eq_true, Bool.not_eq_true', beq_eq_false_iff_ne,
      ne_eq, beq_iff_eq] at h4
    intro he
    exact h4.2 (by rw [he])
  · have hsorted :=
      List.sorted_mergeSort byRecency_trans byRecency_total
        (store.filter (fun c => c.userId == u && !(some aid == some c.id)))
    have h2 := hsorted.sublist (List.take_sublist 5 _)
    exact h2.imp (fun h => by simpa [byRecency] using h)
  · unfold getUserLongTermMemory
    rw [if_neg (by decide)]
    rw [← pastConversations_nil_iff store u (some aid)]
    constructor
    · intro hd
      cases hpe : (pastConversations store u (some aid)).isEmpty with
      | true => exact List.isEmpty_iff.mp hpe
      | false =>
          simp only [hpe, Bool.false_eq_true, if_false] at hd
          obtain ⟨s, hs⟩ :=
            foldl_summary_shape (pastConversations store u (some aid)) memoryHeader
          rw [hs] at hd
          have hlen := congrArg String.length hd
          rw [String.length_append] at hlen
          have h1 : 42 < memoryHeader.length := by decide
          have h2 : noHistorySentinel.length = 42 := by decide
          omega
    · intro hnil
      simp [hnil]

/-- Witness for C5: a stored conversation of another thread appears in the
digest and is not the active one. -/
theorem memory_digest_bounded_witness :
    (Conversation.mk 1 "u" "t" [] 10).id ≠ 0 :=
  (memory_digest_bounded [Conversation.mk 1 "u" "t" [] 10] "u" 0).2.1
    (Conversation.mk 1 "u" "t" [] 10) (by simp [pastConversations])

/-- C6: a `/chat` request whose `conversationId` is absent or owned by
another user is not rejected — whatever it persists is a fresh conversation
titled from the prompt — while the direct `GET` and `DELETE` conversation
endpoints answer 404 for exactly those ids (lookup misses are ids that are
absent or not owned by the caller). -/
theorem missing_conversation_starts_new (w : World) (store : List Conversation)
    (u p : String) (cid : Nat) :
    (findConv store u cid = none ↔
      ∀ c ∈ store, ¬(c.id = cid ∧ c.userId = u)) ∧
    (findConv store u cid = none →
      ∀ r ncid, (chat w store u p (some cid)).fst = some (ChatResponse.ok r ncid) →
        savedConvs (chat w store u p (some cid)).snd =
          [appendExchange (newConversation w.freshId u (mkTitle p)) p r]) ∧
    (findConv store u cid = none →
      getConversationEndpoint true store u cid =
        ConvResponse.notFound ("Conversation not found.")) ∧
    (findConv store u cid = none →
      deleteConversationEndpoint true store u cid =
        (ConvResponse.notFound ("Conversation not found."), store)) := by
  refine ⟨?_, ?_, ?_, ?_⟩
  · unfold findConv
    rw [List.find?_eq_none]
    constructor
    · intro h c hc hcc
      have := h c hc
      simp only [Bool.and_eq_true, beq_iff_eq] at this
      exact this ⟨hcc.1, hcc.2⟩
    · intro h c hc
      simp only [Bool.and_eq_true, beq_iff_eq]
      exact fun hcc => h c hc hcc
  · intro hnone r ncid h
    have hs := chat_ok w store u p (some cid) r ncid h
    rw [hs]
    have hrf : requestFound store u (some cid) = none := by
      simp [requestFound, hnone]
    rw [hrf]
    rfl
  · intro hnone
    simp [getConversationEndpoint, hnone]
  · intro hnone
    simp [deleteConversationEndpoint, hnone]

/-- Witness for C6: a lookup for an id the caller does not own yields 404 on
the direct endpoint. -/
theorem missing_conversation_starts_new_witness :
    getConversationEndpoint true [Conversation.mk 7 "other" "t" [] 0] "u" 7 =
      ConvResponse.notFound ("Conversation not found.") :=
  (missing_conversation_starts_new (World.mk true true true (Except.ok ("r")) "d" 0)
    [Conversation.mk 7 "other" "t" [] 0] "u" "p" 7).2.2.1 (by decide)

theorem modelRun_provider_error (w : World) (store : List Conversation)
    (u : String) (cvid : Option Nat) (p : String)
    (hprov : w.provider = Except.error ()) :
    (modelRun w store u cvid p).fst = some (ChatResponse.serverError chatErrorMessage) ∧
    savedConvs (modelRun w store u cvid p).snd = [] := by
  constructor
  · unfold modelRun
    rw [hprov]
    split
    · rfl
    · rfl
  · rw [modelRun_savedConvs, hprov]
    split
    · rfl
    · rfl

/-- C7: when the model provider call fails on the model path, the endpoint
answers 500 with the generic message and nothing is persisted — the user
turn pushed in memory before the call is never saved, because the single
persist happens only after a successful provider reply. -/
theorem provider_failure_500_nothing_persisted (w : World)
    (store : List Conversation) (u p : String) (cvid : Option Nat)
    (hp : p ≠ "") (hc : classify p = ShortcutClass.noShortcut)
    (hprov : w.provider = Except.error ()) :
    (chat w store u p cvid).fst = some (ChatResponse.serverError chatErrorMessage) ∧
    savedConvs (chat w store u p cvid).snd = [] := by
  have hp' : (p == "") = false := beq_eq_false_iff_ne.mpr hp
  have hid : identityMatch (normalizePrompt p) = false := by
    cases hi : identityMatch (normalizePrompt p) with
    | false => rfl
    | true => simp [classify, hi] at hc
  have hdt : dateMatch (normalizePrompt p) = false := by
    cases hd : dateMatch (normalizePrompt p) with
    | false => rfl
    | true => simp [classify, hid, hd] at hc
  rw [chat_eq]
  simp only [hp', hid, hdt, Bool.false_eq_true, if_false]
  exact modelRun_provider_error w store u cvid p hprov

/-- Witness for C7: a concrete failing provider call yields the 500 body. -/
theorem provider_failure_500_nothing_persisted_witness :
    (chat (World.mk true true true (Except.error ()) "d" 0) [] "u" "hello"
      Option.none).fst = some (ChatResponse.serverError chatErrorMessage) :=
  (provider_failure_500_nothing_persisted
    (World.mk true true true (Except.error ()) "d" 0) [] "u" "hello"
    Option.none (by decide) (by decide) rfl).1

/-- C8: the transcript sent to the provider is the persona system
instruction first, then the stored messages in stored order with senders
translated (`ai` → `assistant`, `user` → `user`), ending with the new user
prompt; the two variants build identical transcripts; and a request invokes
the provider at most once — exactly once on the model path — so there is no
fallback chaining. -/
theorem transcript_shape_single_provider_call :
    (∀ (sys : String) (stored : List Message) (p : String),
      messagesForAPIv1 sys stored p = messagesForAPIv2 sys stored p) ∧
    (∀ (sys : String) (stored : List Message) (p : String),
      messagesForAPIv2 sys stored p =
        APIMessage.mk ("system") sys ::
          (stored.map translateMsg ++ [APIMessage.mk ("user") p])) ∧
    (∀ (w : World) (store : List Conversation) (u p : String) (cvid : Option Nat),
      (providerCalls (chat w store u p cvid).snd).length ≤ 1) ∧
    (∀ (w : World) (store : List Conversation) (u p : String) (cvid : Option Nat),
      p ≠ "" → classify p = ShortcutClass.noShortcut →
      lookupBlocked w cvid = false →
      providerCalls (chat w store u p cvid).snd =
        [APIMessage.mk ("system")
            (systemPromptV2 (getUserLongTermMemory w.memOk store u cvid)) ::
          ((resolveConv w u (requestFound store u cvid) p).messages.map translateMsg ++
            [APIMessage.mk ("user") p])]) := by
  refine ⟨?_, fun sys stored p => rfl, ?_, ?_⟩
  · intro sys stored p
    simp [messagesForAPIv1, messagesForAPIv2, List.map_map, Function.comp,
      translateMsg]
  · intro w store u p cvid
    rw [chat_eq]
    by_cases hp : (p == "") = true
    · rw [if_pos hp]
      simp [providerCalls]
    · rw [if_neg hp]
      by_cases hid : identityMatch (normalizePrompt p) = true
      · rw [if_pos hid, shortcutRun_providerCalls]
        simp
      · rw [if_neg hid]
        by_cases hdt : dateMatch (normalizePrompt p) = true
        · rw [if_pos hdt, shortcutRun_providerCalls]
          simp
        · rw [if_neg hdt, modelRun_providerCalls]
          split <;> simp
  · intro w store u p cvid hp hc hlb
    have hp' : (p == "") = false := beq_eq_false_iff_ne.mpr hp
    have hid : identityMatch (normalizePrompt p) = false := by
      cases hi : identityMatch (normalizePrompt p) with
      | false => rfl
      | true => simp [classify, hi] at hc
    have hdt : dateMatch (normalizePrompt p) = false := by
      cases hd : dateMatch (normalizePrompt p) with
      | false => rfl
      | true => simp [classify, hid, hd] at hc
    rw [chat_eq]
    simp only [hp', hid, hdt, Bool.false_eq_true, if_false]
    rw [modelRun_providerCalls, if_neg (by rw [hlb]; exact Bool.false_ne_true)]
    rfl

/-- Witness for C8: a concrete model-path request makes exactly the one
expected provider call. -/
theorem transcript_shape_single_provider_call_witness :
    providerCalls (chat (World.mk true true true (Except.ok ("r")) "d" 4) []
        "u" "hello" Option.none).snd =
      [APIMessage.mk ("system")
          (systemPromptV2 (getUserLongTermMemory true [] "u" Option.none)) ::
        ((resolveConv (World.mk true true true (Except.ok ("r")) "d" 4) "u"
            (requestFound [] "u" Option.none) "hello").messages.map translateMsg ++
          [APIMessage.mk ("user") "hello"])] :=
  transcript_shape_single_provider_call.2.2.2
    (World.mk true true true (Except.ok ("r")) "d" 4) [] "u" "hello" Option.none
    (by decide) (by decide) rfl

end AiBackend
